import Mathlib

/-!
Shallow embedding of the StudyGuardian backend (`src/backend/src/main.rs`):
the read-only authenticated API tier — session token issuance/validation,
filtered event listing, and on-disk image retrieval with path-containment
enforcement — together with theorems settling the frozen claims about it.

Conventions of the embedding:
* Rust `String`/`&str` become Lean `String`; string manipulation
  (`split`, `trim`, `strip_prefix`) is re-implemented structurally over
  `List Char` so every definition is kernel-executable.
* `std::path::Path` values become `RustPath` (an absoluteness flag plus a
  component list); canonical paths are plain component lists compared with
  `List.isPrefixOf`, matching `Path::starts_with` component semantics.
* The OS filesystem (`canonicalize`, `tokio::fs::read`) is an explicit
  oracle `Fs`; the database rows reaching a handler are explicit arguments
  (`Option (Option _)` mirrors `fetch_optional` returning a row whose
  `frame_path` column is nullable).
* Unix timestamps are `Nat` seconds; HTTP statuses are `Nat`.
-/

set_option autoImplicit false

namespace StudyGuardian

/-! ## String helpers (structural models of the Rust `str` methods used) -/

/-- Model of Rust `char::is_whitespace` restricted to the ASCII whitespace
that can appear in the strings this backend handles. -/
def isWsChar (c : Char) : Bool :=
  c = ' ' || c = '\t' || c = '\n' || c = '\r'

/-- Trim whitespace from the front of a character list. -/
def trimLeftList (cs : List Char) : List Char :=
  cs.dropWhile isWsChar

/-- Model of Rust `str::trim`: drop whitespace from both ends. -/
def trimList (cs : List Char) : List Char :=
  (trimLeftList (trimLeftList cs.reverse).reverse)

/-- Lift of `trimList` to `String`, modelling `str::trim`. -/
def trimStr (s : String) : String :=
  ⟨trimList s.data⟩

/-- Accumulator-passing splitter underlying `splitChar`. -/
def splitCharAux (sep : Char) : List Char → List Char → List (List Char)
  | [], acc => [acc.reverse]
  | c :: cs, acc =>
    if c = sep then acc.reverse :: splitCharAux sep cs []
    else splitCharAux sep cs (c :: acc)

/-- Model of Rust `str::split(sep)` for a single-character separator:
keeps empty segments, `""` yields `[""]`. -/
def splitChar (sep : Char) (s : String) : List String :=
  (splitCharAux sep s.data []).map (fun cs => ⟨cs⟩)

/-- Accumulator-passing helper for `splitn2`. -/
def splitn2Aux (sep : Char) : List Char → List Char → List Char × Option (List Char)
  | [], acc => (acc.reverse, none)
  | c :: cs, acc =>
    if c = sep then (acc.reverse, some cs)
    else splitn2Aux sep cs (c :: acc)

/-- Model of Rust `str::splitn(2, sep)` read off as the pair
`(parts.next(), parts.next())`: the text before the first separator, and
(when a separator occurs) everything after it. -/
def splitn2 (sep : Char) (s : String) : String × Option String :=
  match splitn2Aux sep s.data [] with
  | (before, none) => (⟨before⟩, none)
  | (before, some rest) => (⟨before⟩, some ⟨rest⟩)

/-! ## Paths and the filesystem oracle -/

/-- Model of a `std::path::Path` value: whether it is absolute, plus its
normal components (the string between separators). -/
structure RustPath where
  absolute : Bool
  comps : List String
deriving DecidableEq, Repr

/-- The filesystem as seen by this backend.  `canon` models
`std::fs::canonicalize` (resolving symlinks and `..`; `none` is any
canonicalization failure — nonexistent path, broken symlink, permission
error); a canonical result is an absolute component list.  `read` models
`tokio::fs::read`, `none` being any read failure. -/
structure Fs where
  canon : RustPath → Option (List String)
  read : List String → Option String

/-- The join `root.join(candidate)` as performed in `sanitize_capture_path`, where
`root` is already the canonical root: an absolute candidate replaces the
root, a relative one is appended to it. -/
def joinCandidate (croot : List String) (candidate : RustPath) : RustPath :=
  if candidate.absolute then candidate else ⟨true, croot ++ candidate.comps⟩

/-- Error message of `sanitize_capture_path` when the capture root fails to
canonicalize (the `with_context` text, path display elided). -/
def canonRootFailMsg : String := "无法解析捕获根目录"

/-- Error message when the joined candidate path fails to canonicalize. -/
def canonFileFailMsg : String := "无法解析捕获文件路径"

/-- Error message of the `anyhow::bail!` on a path escaping the root. -/
def escapeMsg : String := "捕获文件路径超出允许目录"

/-- Embedding of `sanitize_capture_path` (main.rs:651-667): canonicalize
the root, join and canonicalize the candidate, then require the canonical
candidate to start with the canonical root. -/
def sanitize_capture_path (fs : Fs) (root : RustPath) (candidate : RustPath) :
    Except String (List String) :=
  match fs.canon root with
  | none => .error canonRootFailMsg
  | some croot =>
    match fs.canon (joinCandidate croot candidate) with
    | none => .error canonFileFailMsg
    | some full =>
      if croot.isPrefixOf full then .ok full
      else .error escapeMsg

/-! ## Image resolution handlers -/

/-- Response of an image endpoint: either the file bytes with a sniffed
content type, or an error status (Nat HTTP code) with its message. -/
inductive ImageResponse where
  | ok (data : String) (contentType : String)
  | err (status : Nat) (message : String)
deriving DecidableEq, Repr

/-- HTTP status of an `ImageResponse` (200 on success). -/
def ImageResponse.statusOf : ImageResponse → Nat
  | .ok _ _ => 200
  | .err s _ => s

/-- Model of `mime_guess::from_path(..).first_or_octet_stream()`: sniff by
the extension of the last path component, defaulting to a generic octet
stream.  (The crate knows more types; only these occur in captures.) -/
def mimeGuessFirstOrOctetStream (p : List String) : String :=
  let name := (p.getLast?).getD ("")
  let ext := ((splitChar '.' name).getLast?).getD ("")
  if ext = "jpg" || ext = "jpeg" then ("image/jpeg")
  else if ext = "png" then ("image/png")
  else if ext = "gif" then ("image/gif")
  else if ext = "bmp" then ("image/bmp")
  else if ext = "webp" then ("image/webp")
  else ("application/octet-stream")

/-- Message used for a failed `tokio::fs::read` (the io error display text
is OS-supplied; the embedding fixes one representative string — only the
status code is specified). -/
def readFailMsg : String := "read error"

/-- Embedding of `get_face_capture_image` (main.rs:343-393).
`capture_root` is `state.capture_root`; `row` is the `fetch_optional`
result for the requested id, its inner `Option RustPath` the nullable
`frame_path` column already parsed as a path. -/
def get_face_capture_image (fs : Fs) (capture_root : Option RustPath)
    (row : Option (Option RustPath)) : ImageResponse :=
  match capture_root with
  | none => .err 500 "capture root not configured"
  | some root =>
    match row with
    | none => .err 404 "face capture not found"
    | some none => .err 404 "face capture has no associated frame path"
    | some (some frame_path) =>
      match sanitize_capture_path fs root frame_path with
      | .error e => .err 400 e
      | .ok target =>
        match fs.read target with
        | none => .err 404 readFailMsg
        | some data => .ok data (mimeGuessFirstOrOctetStream target)

/-- Embedding of `get_posture_event_image` (main.rs:494-544); identical
control flow to the face-capture handler, differing only in messages. -/
def get_posture_event_image (fs : Fs) (capture_root : Option RustPath)
    (row : Option (Option RustPath)) : ImageResponse :=
  match capture_root with
  | none => .err 500 "capture root not configured"
  | some root =>
    match row with
    | none => .err 404 "posture event not found"
    | some none => .err 404 "posture event has no associated frame path"
    | some (some frame_path) =>
      match sanitize_capture_path fs root frame_path with
      | .error e => .err 400 e
      | .ok target =>
        match fs.read target with
        | none => .err 404 readFailMsg
        | some data => .ok data (mimeGuessFirstOrOctetStream target)

/-! ## Session authentication -/

/-- JWT claims as encoded by `login` (main.rs:127-132): subject, expiry
and issue time (unix seconds, Rust `usize`). -/
structure Claims where
  sub : String
  exp : Nat
  iat : Nat
deriving DecidableEq, Repr

/-- The auth configuration held in `AppState` (main.rs:35-42); the
encoding and decoding keys are both derived from the one symmetric
`secret`, so the model keeps the secret itself. -/
structure AuthSettings where
  username : String
  password : String
  session_minutes : Int
  secret : String
deriving DecidableEq, Repr

/-- A decoded-form JWT: its claims plus the secret whose MAC signs it.
Signature verification succeeds exactly when the verifier's secret equals
`signedWith`. -/
structure Token where
  claims : Claims
  signedWith : String
deriving DecidableEq, Repr

/-- Modelled from the spec: `jsonwebtoken::encode` (the crate and its
pinned version are outside src/).  Producing a token signed with the given
symmetric secret. -/
def jwtEncode (claims : Claims) (secret : String) : Token :=
  ⟨claims, secret⟩

/-- Modelled from the spec: `jsonwebtoken::decode` under
`Validation::default()` (crate outside src/); per the spec the default
rules check the signature and enforce expiry strictly, with no leeway
configured: a token is rejected exactly when the signature mismatches or
`exp` is in the past. -/
def jwtDecode (now : Nat) (token : Token) (secret : String) : Option Claims :=
  if token.signedWith = secret then
    if token.claims.exp < now then none else some token.claims
  else none

/-- Embedding of `validate_token` (main.rs:730-734): decode with the
configured decoding key under default validation. -/
def validate_token (now : Nat) (token : Token) (auth : AuthSettings) : Option Claims :=
  jwtDecode now token auth.secret

/-- Request body of POST /api/login (main.rs:114-118). -/
structure LoginRequest where
  username : String
  password : String
deriving DecidableEq, Repr

/-- Response body of POST /api/login (main.rs:120-125). -/
structure LoginResponse where
  token : Token
  expires_at : Nat
  username : String
deriving DecidableEq, Repr

/-- An error carried with its HTTP status, modelling
`ApiError(anyhow::Error, StatusCode)` (main.rs:134); the `anyhow::Error`
is kept as its display string. -/
structure ApiError where
  message : String
  status : Nat
deriving DecidableEq, Repr

/-- Embedding of the `login` handler (main.rs:222-249): compare against
the configured credential pair, then issue a token expiring
`session_minutes.max(1)` minutes from now. -/
def login (auth : AuthSettings) (now : Nat) (payload : LoginRequest) :
    Except ApiError LoginResponse :=
  if payload.username ≠ auth.username ∨ payload.password ≠ auth.password then
    .error ⟨"用户名或密码错误", 401⟩
  else
    let exp : Nat := now + 60 * (max auth.session_minutes 1).toNat
    let claims : Claims := ⟨payload.username, exp, now⟩
    let token := jwtEncode claims auth.secret
    .ok ⟨token, exp, payload.username⟩

/-- The optional `auth` block of settings.yaml (main.rs:600-610). -/
structure AuthConfig where
  username : Option String
  password : Option String
  secret : Option String
  session_minutes : Option Int
deriving Repr

/-- Embedding of `build_auth_settings` (main.rs:701-728): defaults
`admin`/`studyguardian`/`change-me-please`/5 minutes, with the session
length floored at 1 minute. -/
def build_auth_settings (cfg : Option AuthConfig) : AuthSettings :=
  { username := (cfg.bind (fun a => a.username)).getD ("admin")
    password := (cfg.bind (fun a => a.password)).getD ("studyguardian")
    secret := (cfg.bind (fun a => a.secret)).getD ("change-me-please")
    session_minutes := max ((cfg.bind (fun a => a.session_minutes)).getD 5) 1 }

/-! ## Token extraction and the auth middleware -/

/-- The parts of an inbound HTTP request `extract_token` inspects: the
`Authorization` header (already decoded to text; a non-UTF8 header value,
where `to_str()` fails, is `none`) and the raw query string. -/
structure HttpRequest where
  authorization : Option String
  query : String
deriving DecidableEq, Repr

/-- Model of `value.strip_prefix("Bearer ")` (main.rs:741). -/
def dropBearer (v : String) : Option String :=
  if ("Bearer ").data.isPrefixOf v.data then
    some ⟨v.data.drop (("Bearer ").data.length)⟩
  else none

/-- The query-pair loop of `extract_token` (main.rs:748-756): scan
`&`-separated pairs, split each at the first `=`, return the first
nonempty value keyed `token`. -/
def queryTokenLookup : List String → Option String
  | [] => none
  | pair :: rest =>
    match splitn2 '=' pair with
    | (key, some value) =>
      if key = "token" ∧ value ≠ "" then some value else queryTokenLookup rest
    | (_, none) => queryTokenLookup rest

/-- Embedding of `extract_token` (main.rs:736-758): a `Bearer` header
value, stripped and trimmed, wins when nonempty; otherwise the first
nonempty `token` query parameter. -/
def extract_token (req : HttpRequest) : Option String :=
  match (req.authorization.bind (fun v => (dropBearer v).map trimStr)).bind
      (fun t => if t = "" then none else some t) with
  | some header => some header
  | none => queryTokenLookup (splitChar '&' req.query)

/-- Embedding of the `require_auth` middleware (main.rs:251-261).
`tokenValid` stands for `validate_token` composed with JWT string
parsing (the wire serialization of tokens is external to the model): it
returns the claims of a valid, unexpired token and `none` for a
malformed, badly signed or expired one.  Any failure is the bare status
401. -/
def require_auth (tokenValid : String → Option Claims) (req : HttpRequest) :
    Except Nat Claims :=
  match extract_token req with
  | none => .error 401
  | some token =>
    match tokenValid token with
    | none => .error 401
    | some claims => .ok claims

/-! ## Error response serialization -/

/-- A serialized HTTP response: status plus body text. -/
structure HttpResponse where
  status : Nat
  body : String
deriving DecidableEq, Repr

/-- JSON string escaping for the characters that need it in a message
(serde_json escapes more control characters; none occur here). -/
def jsonEscapeChar (c : Char) : List Char :=
  if c = '"' then ['\\', '"'] else if c = '\\' then ['\\', '\\'] else [c]

/-- Lift of `jsonEscapeChar` to strings. -/
def jsonEscape (s : String) : String :=
  ⟨(s.data.map jsonEscapeChar).flatten⟩

/-- Serialization of `ApiErrorBody { message }` by serde_json (main.rs:
109-112): the object with the single `message` field. -/
def jsonMessageBody (m : String) : String :=
  ⟨("\x7b\"message\":\"").data ++ (jsonEscape m).data ++ ("\"\x7d").data⟩

/-- Embedding of `impl IntoResponse for ApiError` (main.rs:136-144): the
status paired with the JSON body. -/
def ApiError.into_response (e : ApiError) : HttpResponse :=
  ⟨e.status, jsonMessageBody e.message⟩

/-- Axum renders a bare `StatusCode` error as a response with that status
and an empty body; this models the `Err(StatusCode)` arm of
`require_auth`'s `Result<Response, StatusCode>`. -/
def statusCode_into_response (status : Nat) : HttpResponse :=
  ⟨status, ("")⟩

/-- A protected route as wired in `main` (main.rs:178-187): `require_auth`
runs first; on failure its status is rendered by axum, on success the
inner handler runs. -/
def protected_route (tokenValid : String → Option Claims) (req : HttpRequest)
    (handler : Claims → HttpResponse) : HttpResponse :=
  match require_auth tokenValid req with
  | .error status => statusCode_into_response status
  | .ok claims => handler claims

/-- Follows the spec's words, for comparison with the code's responses:
the spec's stated error body shape is a JSON object opening with a
`message` field, `\x7b"message": ...\x7d`. -/
def hasMessageBodyShape (body : String) : Bool :=
  ("\x7b\"message\":").data.isPrefixOf body.data

/-! ## Event listing and projection -/

/-- Query parameters of GET /api/face-captures (main.rs:44-48). -/
structure ListParams where
  limit : Option Int
  group_tag : Option String
deriving Repr

/-- Query parameters of GET /api/posture-events (main.rs:70-74). -/
structure PostureListParams where
  limit : Option Int
  is_bad : Option Bool
deriving Repr

/-- A row of the face_captures table (main.rs:50-58).  Uuids are kept as
strings; timestamps as unix seconds. -/
structure FaceCaptureRow where
  id : String
  identity : String
  group_tag : String
  frame_path : Option String
  face_distance : Option Float
  timestamp : Int
deriving Repr

/-- The face-capture DTO (main.rs:60-68). -/
structure FaceCapture where
  id : String
  identity : String
  group_tag : String
  face_distance : Option Float
  timestamp : Int
  image_url : Option String
deriving Repr

/-- A row of the posture_events table (main.rs:76-88). -/
structure PostureRow where
  id : String
  identity : String
  is_bad : Bool
  nose_drop : Option Float
  neck_angle : Option Float
  reasons : Option String
  face_distance : Option Float
  frame_path : Option String
  face_capture_id : Option String
  timestamp : Int
deriving Repr

/-- The posture-event DTO (main.rs:90-107). -/
structure PostureEvent where
  id : String
  identity : String
  is_bad : Bool
  nose_drop : Option Float
  neck_angle : Option Float
  reasons : List String
  face_distance : Option Float
  frame_path : Option String
  face_capture_id : Option String
  timestamp : Int
  image_url : Option String
deriving Repr

/-- Rust `i64::clamp(self, min, max)`. -/
def clampI64 (x lo hi : Int) : Int :=
  if x < lo then lo else if hi < x then hi else x

/-- The effective limit of a face-capture listing,
`params.limit.unwrap_or(40).clamp(1, 200)` (main.rs:267). -/
def face_captures_effective_limit (l : Option Int) : Int :=
  clampI64 (l.getD 40) 1 200

/-- The effective limit of a posture-event listing,
`params.limit.unwrap_or(50).clamp(1, 200)` (main.rs:399). -/
def posture_events_effective_limit (l : Option Int) : Int :=
  clampI64 (l.getD 50) 1 200

/-- Projection of a face-capture row to its DTO (main.rs:322-338):
`image_url` is the face-capture image endpoint when `frame_path` is
non-null, else null. -/
def faceRowToCapture (row : FaceCaptureRow) : FaceCapture :=
  { id := row.id
    identity := row.identity
    group_tag := row.group_tag
    face_distance := row.face_distance
    timestamp := row.timestamp
    image_url := row.frame_path.map
      (fun _ => ("/api/face-captures/" ++ row.id ++ "/image")) }

/-- The reasons-CSV parsing inlined in `list_posture_events`
(main.rs:456-465): split on commas, trim each segment, drop empty
segments; a null CSV yields the empty list. -/
def parseReasons (reasons : Option String) : List String :=
  (reasons.map (fun r =>
    ((splitChar ',' r).map trimStr).filter (fun s => s != ""))).getD []

/-- Projection of a posture row to its DTO (main.rs:453-488): parsed
reasons, and `image_url` preferring the linked face capture over the
event's own frame. -/
def postureRowToEvent (row : PostureRow) : PostureEvent :=
  let reasons := parseReasons row.reasons
  let image_url :=
    (row.face_capture_id.map
      (fun face_id => ("/api/face-captures/" ++ face_id ++ "/image"))).orElse
      (fun _ => row.frame_path.map
        (fun _ => ("/api/posture-events/" ++ row.id ++ "/image")))
  { id := row.id
    identity := row.identity
    is_bad := row.is_bad
    nose_drop := row.nose_drop
    neck_angle := row.neck_angle
    reasons := reasons
    face_distance := row.face_distance
    frame_path := row.frame_path
    face_capture_id := row.face_capture_id
    timestamp := row.timestamp
    image_url := image_url }

/-- Embedding of `list_face_captures` (main.rs:263-341).  `table` is the
face_captures table already ordered by timestamp descending; the SQL
`WHERE group_tag = $1 ... LIMIT $2` is filter-then-take. -/
def list_face_captures (table : List FaceCaptureRow) (params : ListParams) :
    List FaceCapture :=
  let limit := face_captures_effective_limit params.limit
  let group_tag := (params.group_tag.map trimStr).bind
    (fun v => if v = "" then none else some v)
  let rows := match group_tag with
    | some tag =>
      (table.filter (fun (r : FaceCaptureRow) => r.group_tag == tag)).take limit.toNat
    | none => table.take limit.toNat
  rows.map faceRowToCapture

/-- Embedding of `list_posture_events` (main.rs:395-492), with the SQL
`WHERE is_bad = $2 ... LIMIT $1` as filter-then-take over the
timestamp-descending table. -/
def list_posture_events (table : List PostureRow) (params : PostureListParams) :
    List PostureEvent :=
  let limit := posture_events_effective_limit params.limit
  let rows := match params.is_bad with
    | some flag =>
      (table.filter (fun (r : PostureRow) => r.is_bad == flag)).take limit.toNat
    | none => table.take limit.toNat
  rows.map postureRowToEvent

/-! ## Concrete filesystem scenarios used as witnesses -/

/-- A configured capture root, `/srv/captures`. -/
def rootDemo : RustPath := ⟨true, ["srv", "captures"]⟩

/-- A stored relative frame path escaping the root via a `..` segment. -/
def escCand : RustPath := ⟨false, ["..", "secret.png"]⟩

/-- A filesystem on which the root canonicalizes to itself and the joined
escaping candidate canonicalizes to `/srv/secret.png`, outside the root. -/
def fsEscapeDemo : Fs where
  canon p :=
    if p = rootDemo then some ["srv", "captures"]
    else if p = ⟨true, ["srv", "captures", "..", "secret.png"]⟩ then
      some ["srv", "secret.png"]
    else none
  read _ := some ("SECRET")

/-- A stored relative frame path naming a since-deleted file. -/
def missingCand : RustPath := ⟨false, ["gone.png"]⟩

/-- A filesystem on which the root canonicalizes but the stored candidate
does not (nonexistent file). -/
def fsCanonFailDemo : Fs where
  canon p := if p = rootDemo then some ["srv", "captures"] else none
  read _ := none

/-- A filesystem on which the candidate canonicalizes inside the root yet
the subsequent read fails (file deleted between the two calls). -/
def fsReadFailDemo : Fs where
  canon p :=
    if p = rootDemo then some ["srv", "captures"]
    else if p = ⟨true, ["srv", "captures", "gone.png"]⟩ then
      some ["srv", "captures", "gone.png"]
    else none
  read _ := none

/-! ## Concrete auth and request scenarios used as witnesses -/

/-- The default auth settings (all config fields absent). -/
def authDemo : AuthSettings :=
  ⟨"admin", "studyguardian", 5, "change-me-please"⟩

/-- A token signed with the default secret whose expiry (second 10) has
long passed — it was valid between seconds 0 and 10. -/
def expiredTokenDemo : Token :=
  ⟨⟨"admin", 10, 0⟩, "change-me-please"⟩

/-- A request bearing neither an Authorization header nor a query token. -/
def noTokenReq : HttpRequest := ⟨none, ("")⟩

/-- A validator on which every token string fails (e.g. all are expired). -/
def rejectAllTokens : String → Option Claims := fun _ => none

/-- A request carrying a query-string token that the validator will
reject (an expired or malformed token). -/
def expiredTokenReq : HttpRequest := ⟨none, ("token=expired")⟩

/-- A stand-in protected handler. -/
def okHandler : Claims → HttpResponse := fun _ => ⟨200, ("")⟩

/-! ## Helper lemmas -/

/-- A list is a Boolean prefix of itself followed by anything. -/
theorem isPrefixOf_append_self {α : Type} [BEq α] [LawfulBEq α] (l r : List α) :
    l.isPrefixOf (l ++ r) = true := by
  rw [List.isPrefixOf_iff_prefix]
  exact List.prefix_append l r

/-! ## Claims -/

/-- Claim C1: for every image request (face-capture or posture-event)
whose row has a non-null frame_path, if the stored path, after
canonicalizing symlinks and `..` segments against the canonicalized
capture root, does not lie within the capture root, the resolver returns
BadRequest (400, the escape message) and never returns the file's
contents. -/
theorem path_escape_returns_bad_request (fs : Fs) (root cand : RustPath)
    (croot full : List String)
    (hroot : fs.canon root = some croot)
    (hfull : fs.canon (joinCandidate croot cand) = some full)
    (hesc : croot.isPrefixOf full = false) :
    get_face_capture_image fs (some root) (some (some cand)) = .err 400 escapeMsg
    ∧ get_posture_event_image fs (some root) (some (some cand)) = .err 400 escapeMsg
    ∧ (∀ data ct, get_face_capture_image fs (some root) (some (some cand)) ≠ .ok data ct)
    ∧ (∀ data ct, get_posture_event_image fs (some root) (some (some cand)) ≠ .ok data ct) := by
  have hsan : sanitize_capture_path fs root cand = .error escapeMsg := by
    simp [sanitize_capture_path, hroot, hfull, hesc]
  refine ⟨?_, ?_, ?_, ?_⟩ <;>
    simp [get_face_capture_image, get_posture_event_image, hsan]

/-- Witness for C1: on `fsEscapeDemo` the stored path `../secret.png`
canonicalizes to `/srv/secret.png`, outside `/srv/captures`, and the
handler answers 400. -/
theorem path_escape_witness :
    fsEscapeDemo.canon rootDemo = some ["srv", "captures"]
    ∧ fsEscapeDemo.canon (joinCandidate ["srv", "captures"] escCand)
        = some ["srv", "secret.png"]
    ∧ List.isPrefixOf ["srv", "captures"] ["srv", "secret.png"] = false
    ∧ get_face_capture_image fsEscapeDemo (some rootDemo) (some (some escCand))
        = .err 400 escapeMsg :=
  ⟨by decide, by decide, by decide,
    (path_escape_returns_bad_request fsEscapeDemo rootDemo escCand
      (["srv", "captures"]) (["srv", "secret.png"])
      (by decide) (by decide) (by decide)).1⟩

/-- Counterexample to C2 as stated: a stored path that fails to
canonicalize (nonexistent file) is answered with status 400, not the
claimed 404. -/
theorem canonicalize_failure_counterexample :
    get_face_capture_image fsCanonFailDemo (some rootDemo) (some (some missingCand))
      = .err 400 canonFileFailMsg
    ∧ (get_face_capture_image fsCanonFailDemo (some rootDemo)
        (some (some missingCand))).statusOf ≠ 404 := by
  decide

/-- Claim C2 (amended): for every image request, a canonicalization
failure of the stored path yields BadRequest (400) — the sanitize error
mapping, not 404 — while a sanitized in-root path whose file read fails
yields NotFound (404), never InternalError. -/
theorem canonicalize_failure_maps_to_bad_request (fs : Fs) (root cand : RustPath)
    (croot : List String) (hroot : fs.canon root = some croot) :
    (fs.canon (joinCandidate croot cand) = none →
      get_face_capture_image fs (some root) (some (some cand)) = .err 400 canonFileFailMsg
      ∧ get_posture_event_image fs (some root) (some (some cand)) = .err 400 canonFileFailMsg)
    ∧ (∀ full, fs.canon (joinCandidate croot cand) = some full →
      croot.isPrefixOf full = true → fs.read full = none →
      get_face_capture_image fs (some root) (some (some cand)) = .err 404 readFailMsg
      ∧ get_posture_event_image fs (some root) (some (some cand)) = .err 404 readFailMsg) := by
  constructor
  · intro hnone
    have hsan : sanitize_capture_path fs root cand = .error canonFileFailMsg := by
      simp [sanitize_capture_path, hroot, hnone]
    constructor <;> simp [get_face_capture_image, get_posture_event_image, hsan]
  · intro full hfull hpre hread
    have hsan : sanitize_capture_path fs root cand = .ok full := by
      simp [sanitize_capture_path, hroot, hfull, hpre]
    constructor <;>
      simp [get_face_capture_image, get_posture_event_image, hsan, hread]

/-- Witness for the amended C2: the canonicalization-failure scenario
answers 400 and the read-failure scenario answers 404. -/
theorem canonicalize_failure_witness :
    get_face_capture_image fsCanonFailDemo (some rootDemo) (some (some missingCand))
      = .err 400 canonFileFailMsg
    ∧ get_face_capture_image fsReadFailDemo (some rootDemo) (some (some missingCand))
      = .err 404 readFailMsg :=
  ⟨((canonicalize_failure_maps_to_bad_request fsCanonFailDemo rootDemo missingCand
      (["srv", "captures"]) (by decide)).1 (by decide)).1,
   ((canonicalize_failure_maps_to_bad_request fsReadFailDemo rootDemo missingCand
      (["srv", "captures"]) (by decide)).2 (["srv", "captures", "gone.png"])
      (by decide) (by decide) (by decide)).1⟩

/-- Claim C3: for every token whose expires_at is in the past at
verification time, verification rejects it (no claims are produced),
including tokens that were valid when issued — the statement quantifies
over all tokens, correctly signed ones included. -/
theorem expired_token_rejected (now : Nat) (token : Token) (auth : AuthSettings)
    (hexp : token.claims.exp < now) :
    validate_token now token auth = none := by
  unfold validate_token jwtDecode
  split <;> simp [hexp]

/-- Witness for C3: the correctly signed token that expired at second 10
is rejected at second 100. -/
theorem expired_token_witness :
    expiredTokenDemo.claims.exp < 100
    ∧ validate_token 100 expiredTokenDemo authDemo = none :=
  ⟨by decide, expired_token_rejected 100 expiredTokenDemo authDemo (by decide)⟩

/-- Claim C4: a token issued by login with the correct configured
credentials is accepted by verification immediately after issuance, and
rejected once more than session_minutes have elapsed since issuance
(session_minutes being at least 1, as `build_auth_settings`
guarantees). -/
theorem login_token_round_trip (auth : AuthSettings) (now : Nat)
    (payload : LoginRequest)
    (hm : 1 ≤ auth.session_minutes)
    (hu : payload.username = auth.username)
    (hp : payload.password = auth.password) :
    ∃ resp : LoginResponse,
      login auth now payload = .ok resp
      ∧ validate_token now resp.token auth = some resp.token.claims
      ∧ ∀ later : Nat, now + 60 * auth.session_minutes.toNat < later →
          validate_token later resp.token auth = none := by
  have hguard : ¬(payload.username ≠ auth.username ∨ payload.password ≠ auth.password) := by
    simp [hu, hp]
  have hmax : max auth.session_minutes 1 = auth.session_minutes := max_eq_left hm
  have hdecOk : ∀ (c : Claims) (t : Nat), ¬ c.exp < t →
      validate_token t (jwtEncode c auth.secret) auth = some c := by
    intro c t hc
    unfold validate_token jwtDecode jwtEncode
    rw [if_pos rfl, if_neg hc]
  have hdecExp : ∀ (c : Claims) (t : Nat), c.exp < t →
      validate_token t (jwtEncode c auth.secret) auth = none := by
    intro c t hc
    unfold validate_token jwtDecode jwtEncode
    rw [if_pos rfl, if_pos hc]
  refine ⟨⟨jwtEncode ⟨payload.username, now + 60 * (max auth.session_minutes 1).toNat, now⟩
      auth.secret, now + 60 * (max auth.session_minutes 1).toNat, payload.username⟩,
    ?_, ?_, ?_⟩
  · unfold login
    rw [if_neg hguard]
  · exact hdecOk ⟨payload.username, now + 60 * (max auth.session_minutes 1).toNat, now⟩ now
      (by show ¬ now + 60 * (max auth.session_minutes 1).toNat < now; omega)
  · intro later hlater
    exact hdecExp ⟨payload.username, now + 60 * (max auth.session_minutes 1).toNat, now⟩ later
      (by show now + 60 * (max auth.session_minutes 1).toNat < later; rw [hmax]; exact hlater)

/-- Witness for C4: logging in with the default credentials at second
1000 yields a token accepted at second 1000 and rejected after the
5-minute session window. -/
theorem login_round_trip_witness :
    (1 ≤ authDemo.session_minutes)
    ∧ ∃ resp : LoginResponse,
      login authDemo 1000 ⟨"admin", "studyguardian"⟩ = .ok resp
      ∧ validate_token 1000 resp.token authDemo = some resp.token.claims
      ∧ ∀ later : Nat, 1000 + 60 * authDemo.session_minutes.toNat < later →
          validate_token later resp.token authDemo = none :=
  ⟨by decide,
    login_token_round_trip authDemo 1000 ⟨"admin", "studyguardian"⟩
      (by decide) rfl rfl⟩

/-- Claim C5: for every requested limit (including absent), the effective
limit of a list query lies in [1, 200], with default 40 for face-capture
listings and 50 for posture-event listings. -/
theorem effective_limit_clamped (l : Option Int) :
    (1 ≤ face_captures_effective_limit l ∧ face_captures_effective_limit l ≤ 200)
    ∧ (1 ≤ posture_events_effective_limit l ∧ posture_events_effective_limit l ≤ 200)
    ∧ face_captures_effective_limit none = 40
    ∧ posture_events_effective_limit none = 50 := by
  unfold face_captures_effective_limit posture_events_effective_limit clampI64
  refine ⟨⟨?_, ?_⟩, ⟨?_, ?_⟩, by decide, by decide⟩ <;> (split <;> try split) <;> omega

/-- Claim C6: for every projected PostureEvent, image_url is the linked
face capture's image endpoint whenever face_capture_id is non-null (the
event's own frame_path notwithstanding), else the event's own image
endpoint when its frame_path is non-null, else null. -/
theorem posture_image_url_fallback (row : PostureRow) :
    (postureRowToEvent row).image_url =
      match row.face_capture_id with
      | some face_id => some ("/api/face-captures/" ++ face_id ++ "/image")
      | none => row.frame_path.map
          (fun _ => ("/api/posture-events/" ++ row.id ++ "/image")) := by
  unfold postureRowToEvent
  cases hfc : row.face_capture_id <;> simp [hfc, Option.orElse]

/-- Claim C7: projection splits a CSV reasons string on commas, trims
each segment and drops empty ones, preserving order and duplicates; the
input with an all-blank middle segment and a trailing comma yields
exactly ["tilt", "slouch"], and a null reasons value yields []. -/
theorem reasons_parsing (row : PostureRow) :
    (postureRowToEvent row).reasons = parseReasons row.reasons
    ∧ parseReasons none = []
    ∧ parseReasons (some ("tilt, , slouch,")) = ["tilt", "slouch"]
    ∧ parseReasons (some (" a ,b, a ,,b")) = ["a", "b", "a", "b"] :=
  ⟨rfl, rfl, by decide, by decide⟩

/-- Claim C8: token extraction accepts either an `Authorization: Bearer`
header or a `token` query parameter, the header winning when both could
apply: with a well-formed nonempty Bearer header the extracted token is
the trimmed header value whatever the query string holds, and with no
header the query-pair scan decides, accepting a nonempty `token` pair. -/
theorem token_extraction_header_precedence :
    (∀ (q t : String), trimStr t ≠ ("") →
      extract_token ⟨some (("Bearer ") ++ t), q⟩ = some (trimStr t))
    ∧ (∀ q : String, extract_token ⟨none, q⟩ = queryTokenLookup (splitChar '&' q))
    ∧ extract_token ⟨none, ("token=zzz&limit=5")⟩ = some ("zzz") := by
  refine ⟨?_, ?_, by decide⟩
  · intro q t ht
    have hdrop : dropBearer (("Bearer ") ++ t) = some t := by
      unfold dropBearer
      rw [String.data_append, if_pos (isPrefixOf_append_self _ _), List.drop_left]
    unfold extract_token
    simp [hdrop, ht]
  · intro q
    rfl

/-- Witness for C8: header token `abc` wins over query token `zzz`. -/
theorem token_extraction_witness :
    trimStr ("abc") ≠ ("")
    ∧ extract_token ⟨some (("Bearer ") ++ ("abc")), ("token=zzz")⟩
        = some (trimStr ("abc")) :=
  ⟨by decide,
    token_extraction_header_precedence.1 ("token=zzz") ("abc") (by decide)⟩

/-- Counterexample to C9 as stated: the 401 produced by the auth
middleware for a request with no (hence in particular no valid) token is
rendered by axum from a bare StatusCode with an empty body, which does
not have the spec's message-object shape. -/
theorem middleware_401_empty_body :
    protected_route rejectAllTokens noTokenReq okHandler = ⟨401, ("")⟩
    ∧ hasMessageBodyShape
        (protected_route rejectAllTokens noTokenReq okHandler).body = false := by
  decide

/-- Claim C9 (amended): every error response produced through ApiError —
the handlers' 400/404/500 and the login 401 — carries the JSON body
shape with a `message` field paired with its status, while the auth
middleware's 401 carries an empty body at either failure stage: no
token extracted (missing token), or a token extracted that validation
rejects (malformed, badly signed or expired token). -/
theorem api_error_body_shape (e : ApiError) :
    ((ApiError.into_response e).status = e.status
      ∧ hasMessageBodyShape (ApiError.into_response e).body = true)
    ∧ (∀ (tokenValid : String → Option Claims) (req : HttpRequest)
        (handler : Claims → HttpResponse),
        extract_token req = none →
        protected_route tokenValid req handler = ⟨401, ("")⟩)
    ∧ (∀ (tokenValid : String → Option Claims) (req : HttpRequest)
        (handler : Claims → HttpResponse) (t : String),
        extract_token req = some t → tokenValid t = none →
        protected_route tokenValid req handler = ⟨401, ("")⟩) := by
  refine ⟨⟨rfl, ?_⟩, ?_, ?_⟩
  · unfold ApiError.into_response jsonMessageBody hasMessageBodyShape
    have hsplit : (("\x7b\"message\":\"")).data = (("\x7b\"message\":")).data ++ ['"'] := by
      decide
    rw [hsplit, List.append_assoc, List.append_assoc]
    exact isPrefixOf_append_self _ _
  · intro tokenValid req handler hnone
    unfold protected_route require_auth
    rw [hnone]
    rfl
  · intro tokenValid req handler t hsome hreject
    simp only [protected_route, require_auth, hsome, hreject]
    rfl

/-- Witness for the amended C9: a concrete ApiError response has the
message shape; the tokenless request gets the empty-bodied 401; and so
does a request whose extracted query token the validator rejects. -/
theorem api_error_body_shape_witness :
    hasMessageBodyShape (ApiError.into_response ⟨("boom"), 500⟩).body = true
    ∧ extract_token noTokenReq = none
    ∧ protected_route rejectAllTokens noTokenReq okHandler = ⟨401, ("")⟩
    ∧ extract_token expiredTokenReq = some ("expired")
    ∧ rejectAllTokens ("expired") = none
    ∧ protected_route rejectAllTokens expiredTokenReq okHandler = ⟨401, ("")⟩ :=
  ⟨(api_error_body_shape ⟨("boom"), 500⟩).1.2,
   by decide,
   (api_error_body_shape ⟨("boom"), 500⟩).2.1 rejectAllTokens noTokenReq okHandler
     (by decide),
   by decide,
   rfl,
   (api_error_body_shape ⟨("boom"), 500⟩).2.2 rejectAllTokens expiredTokenReq okHandler
     ("expired") (by decide) rfl⟩

/-- Claim C10: for every image request on either table, an unconfigured
capture root yields InternalError 500 "capture root not configured"
whatever row the database would return — the guard runs before the
lookup, so the answer is the same for every row, existing id or not. -/
theorem missing_capture_root_internal_error (fs : Fs)
    (row row2 : Option (Option RustPath)) :
    get_face_capture_image fs none row = .err 500 ("capture root not configured")
    ∧ get_posture_event_image fs none row2 = .err 500 ("capture root not configured") :=
  ⟨rfl, rfl⟩

end StudyGuardian
